import Mathlib

set_option maxRecDepth 4000

/-!
# Verification of the bunproj bundle-execution and analytics core

Shallow embedding of the Rust sources:

* `Bundler`    — `src/bundler.rs` (`BundleManager::execute_bundle`, the stealth /
  MEV orchestration loop, history trimming, stealth score).
* `AnalyticsM` — `src/analytics.rs` (`Analytics::get_analytics_data` and the
  derived statistics).
* `Mev`        — `src/mev_protection.rs` (`detect_frontrunning_risk`,
  `is_transaction_safe`).
* `BundleV`    — `src/bundle.rs` (the second `BundleManager` variant with input
  validation and the per-wallet `execute_transaction` dispatcher).

Conventions: Rust `f64` values are embedded as exact rationals (`Rat`); decimal
literals such as `0.03` become `3/100`.  `u32`/`u64` counters become `Nat`.
Randomness (`rand::thread_rng()`) is embedded as an explicit oracle record
(`ExecEnv`): every `gen_range`/`gen` call reads the oracle at the current loop
index, and `EnvSound` states the bounds the real generator guarantees.
`tokio::time::sleep` calls are recorded as `WaitEvent`s in an execution trace.
The string slice `&wallet_address[..8]` in the per-wallet log statements panics
in Rust whenever the wallet identifier is shorter than 8 bytes; the embedding
models this abort as `Except.error ()` at the same program point (shared state
mutations performed before the abort survive, locals are lost).
-/

namespace Bundler

/-- `BundleConfig` from src/bundler.rs. -/
structure BundleConfig where
  bundle_type : String
  token_address : Option String
  amount_per_wallet : Rat
  wallets : List String
  stealth_mode : Bool
  mev_protection : Bool
  priority_fee : Rat
  slippage : Rat
  stagger_delay : Nat
  randomize_order : Bool
  use_multiple_rpcs : Bool
  anti_mev_delay : Option Nat
deriving Repr, DecidableEq

/-- `TransactionResult` from src/bundler.rs. -/
structure TransactionResult where
  wallet : String
  signature : Option String
  status : String
  amount : Rat
  fee : Rat
  error : Option String
  execution_time : Nat
  block_height : Option Nat
  mev_protected : Bool
deriving Repr, DecidableEq

/-- `StealthMetrics` from src/bundler.rs. -/
structure StealthMetrics where
  randomization_applied : Bool
  multiple_rpcs_used : Bool
  timing_randomized : Bool
  anti_mev_delays : List Nat
  stealth_score : Rat
deriving Repr, DecidableEq

/-- `BundleResult` from src/bundler.rs. -/
structure BundleResult where
  bundle_id : String
  bundle_type : String
  success_count : Nat
  total_transactions : Nat
  total_cost : Rat
  execution_time : Nat
  transactions : List TransactionResult
  stealth_metrics : Option StealthMetrics
  mev_protection_enabled : Bool
  timestamp : String
  token_address : Option String
deriving Repr, DecidableEq

/-- The shared state of `BundleManager`: the bounded bundle history and the
map of currently active bundles (the `HashMap` is modelled as an association
list keyed by bundle id). -/
structure BundleManagerState where
  bundle_history : List BundleResult
  active_bundles : List (String × BundleConfig)
deriving Repr, DecidableEq

/-- `HashMap::insert`: replaces any existing binding for the key. -/
def insertA (m : List (String × BundleConfig)) (k : String) (v : BundleConfig) :
    List (String × BundleConfig) :=
  (k, v) :: m.filter (fun p => p.1 != k)

/-- `HashMap::remove`. -/
def eraseA (m : List (String × BundleConfig)) (k : String) :
    List (String × BundleConfig) :=
  m.filter (fun p => p.1 != k)

/-- The `tokio::time::sleep` calls and operation invocations of the
orchestration loop, in program order. -/
inductive WaitEvent where
  | mevWait (delay : Nat)
  | exec (wallet : String)
  | staggerWait (delay : Nat)
deriving Repr, DecidableEq

/-- Oracle for every call to `rand::thread_rng()`, `Uuid::new_v4()`,
`chrono::Utc::now()` and `Instant::elapsed` made during one `execute_bundle`
call.  Per-step oracles are indexed by the loop index. -/
structure ExecEnv where
  bundle_id : String
  timestamp : String
  shuffle : List String → List String
  genRange : Nat → Nat → Nat → Nat
  jitter : Nat → Rat
  successDraw : Nat → Rat
  sigDraw : Nat → String
  blockHeight : Nat → Nat
  stepTime : Nat → Nat
  totalTime : Nat

/-- The guarantees the real random sources provide: `shuffle` is a permutation,
`gen_range(lo..hi)` returns a value in `[lo, hi)`, and the stagger jitter
`gen_range(0.5..1.5)` lies in `[1/2, 3/2)`. -/
def EnvSound (env : ExecEnv) (config : BundleConfig) : Prop :=
  (env.shuffle config.wallets).Perm config.wallets ∧
  (∀ i lo hi, lo < hi → lo ≤ env.genRange i lo hi ∧ env.genRange i lo hi < hi) ∧
  (∀ i, (1 : Rat)/2 ≤ env.jitter i ∧ env.jitter i < 3/2)

/-- `BundleManager::execute_buy_transaction` (97% success rate). -/
def execute_buy_transaction (env : ExecEnv) (i : Nat) (config : BundleConfig) :
    Except String (String × Rat × Rat) :=
  let signature := env.sigDraw i
  if env.successDraw i > 3/100 then
    Except.ok (signature, config.amount_per_wallet, config.priority_fee)
  else
    Except.error "Buy transaction failed - slippage exceeded"

/-- `BundleManager::execute_sell_transaction` (95% success rate). -/
def execute_sell_transaction (env : ExecEnv) (i : Nat) (config : BundleConfig) :
    Except String (String × Rat × Rat) :=
  let signature := env.sigDraw i
  if env.successDraw i > 5/100 then
    Except.ok (signature, config.amount_per_wallet, config.priority_fee)
  else
    Except.error "Sell transaction failed - insufficient liquidity"

/-- `BundleManager::execute_snipe_transaction` (85% success rate, 3× fee). -/
def execute_snipe_transaction (env : ExecEnv) (i : Nat) (config : BundleConfig) :
    Except String (String × Rat × Rat) :=
  let signature := env.sigDraw i
  if env.successDraw i > 15/100 then
    Except.ok (signature, config.amount_per_wallet, config.priority_fee * 3)
  else
    Except.error "Snipe failed - transaction too slow or frontrun"

/-- `BundleManager::execute_volume_transaction` (98% success rate). -/
def execute_volume_transaction (env : ExecEnv) (i : Nat) (config : BundleConfig) :
    Except String (String × Rat × Rat) :=
  let signature := env.sigDraw i
  if env.successDraw i > 2/100 then
    Except.ok (signature, config.amount_per_wallet, config.priority_fee)
  else
    Except.error "Volume transaction failed"

/-- `BundleManager::execute_pump_transaction` (92% success rate). -/
def execute_pump_transaction (env : ExecEnv) (i : Nat) (config : BundleConfig) :
    Except String (String × Rat × Rat) :=
  let signature := env.sigDraw i
  if env.successDraw i > 8/100 then
    Except.ok (signature, config.amount_per_wallet, config.priority_fee)
  else
    Except.error "Pump transaction failed - market conditions"

/-- `BundleManager::execute_distribute_transaction` (99% success rate). -/
def execute_distribute_transaction (env : ExecEnv) (i : Nat) (config : BundleConfig) :
    Except String (String × Rat × Rat) :=
  let signature := env.sigDraw i
  if env.successDraw i > 1/100 then
    Except.ok (signature, config.amount_per_wallet, config.priority_fee)
  else
    Except.error "Distribution failed - network error"

/-- The `match config.bundle_type.as_str()` dispatch inside the execution loop
of `execute_bundle` (src/bundler.rs lines 120–128).  Note the `_` arm: any
unknown bundle type silently yields a simulated success. -/
def dispatchTx (env : ExecEnv) (i : Nat) (config : BundleConfig) :
    Except String (String × Rat × Rat) :=
  match config.bundle_type with
  | "buy" => execute_buy_transaction env i config
  | "sell" => execute_sell_transaction env i config
  | "snipe" => execute_snipe_transaction env i config
  | "volume" => execute_volume_transaction env i config
  | "pump" => execute_pump_transaction env i config
  | "distribute" => execute_distribute_transaction env i config
  | _ => Except.ok ("simulated_signature", config.amount_per_wallet, config.priority_fee)

/-- `BundleManager::calculate_mev_protection_delay` (src/bundler.rs 220–228). -/
def calculate_mev_protection_delay (env : ExecEnv) (i : Nat) (bundle_type : String) : Nat :=
  match bundle_type with
  | "snipe" => env.genRange i 25 75
  | "buy" => env.genRange i 100 300
  | "sell" => env.genRange i 150 400
  | "volume" => env.genRange i 50 150
  | _ => env.genRange i 100 200

/-- The `gen_range` bounds used by `calculate_mev_protection_delay` for each
bundle type. -/
def mevRange (bundle_type : String) : Nat × Nat :=
  match bundle_type with
  | "snipe" => (25, 75)
  | "buy" => (100, 300)
  | "sell" => (150, 400)
  | "volume" => (50, 150)
  | _ => (100, 200)

/-- The stagger delay actually slept at loop index `i`:
`(base_delay as f64 * random_factor) as u64` with `random_factor` drawn from
`0.5..1.5` (src/bundler.rs 170–172).  The float→integer cast truncates, which
for nonnegative values is the floor. -/
def staggerDelayAt (env : ExecEnv) (config : BundleConfig) (i : Nat) : Nat :=
  (((config.stagger_delay : Rat)) * env.jitter i).floor.toNat

/-- One step of the `match tx_result` block: the `TransactionResult` pushed,
the increment to `success_count`, and the increment to `total_cost`. -/
def stepOutcome (env : ExecEnv) (config : BundleConfig) (i : Nat) (w : String) :
    TransactionResult × Nat × Rat :=
  match dispatchTx env i config with
  | Except.ok (signature, amount, fee) =>
      ({ wallet := w, signature := some signature, status := "confirmed",
         amount := amount, fee := fee, error := none,
         execution_time := env.stepTime i, block_height := some (env.blockHeight i),
         mev_protected := config.mev_protection }, 1, amount + fee)
  | Except.error e =>
      ({ wallet := w, signature := none, status := "failed",
         amount := config.amount_per_wallet, fee := 0, error := some e,
         execution_time := env.stepTime i, block_height := none,
         mev_protected := config.mev_protection }, 0, 0)

/-- Accumulated data of the execution loop. -/
structure LoopOut where
  transactions : List TransactionResult
  success_count : Nat
  total_cost : Rat
  anti_mev_delays : List Nat
  trace : List WaitEvent
deriving Repr, DecidableEq

/-- The `for (index, wallet_address) in execution_order.iter().enumerate()`
loop of `execute_bundle` (src/bundler.rs 109–175), with `n` the length of the
execution order.  Per iteration: optional MEV-protection delay (recorded and
slept before the operation), the operation dispatch, the
`&wallet_address[..8]` logging slice (which panics — `Except.error ()` — when
the wallet id is shorter than 8 bytes), and the optional stagger delay for
`index < n - 1` under stealth mode. -/
def execLoop (env : ExecEnv) (config : BundleConfig) (n : Nat) :
    Nat → List String → Except Unit LoopOut
  | _, [] => Except.ok ⟨[], 0, 0, [], []⟩
  | i, w :: rest =>
    let mevStep : List Nat :=
      if config.mev_protection then [calculate_mev_protection_delay env i config.bundle_type]
      else []
    let s := stepOutcome env config i w
    if w.utf8ByteSize < 8 then Except.error ()
    else
      match execLoop env config n (i + 1) rest with
      | Except.error () => Except.error ()
      | Except.ok out =>
        let staggerStep : List Nat :=
          if config.stealth_mode ∧ i < n - 1 then [staggerDelayAt env config i] else []
        Except.ok ⟨s.1 :: out.transactions,
                   s.2.1 + out.success_count,
                   s.2.2 + out.total_cost,
                   mevStep ++ out.anti_mev_delays,
                   mevStep.map WaitEvent.mevWait ++ [WaitEvent.exec w]
                     ++ staggerStep.map WaitEvent.staggerWait ++ out.trace⟩

/-- `BundleManager::calculate_stealth_score` (src/bundler.rs 347–358). -/
def calculate_stealth_score (config : BundleConfig) (metrics : StealthMetrics) : Rat :=
  let score : Rat := 0
  let score := score + (if config.stealth_mode then (20 : Rat) else 0)
  let score := score + (if config.mev_protection then (25 : Rat) else 0)
  let score := score + (if metrics.randomization_applied then (15 : Rat) else 0)
  let score := score + (if metrics.multiple_rpcs_used then (10 : Rat) else 0)
  let score := score + (if metrics.timing_randomized then (15 : Rat) else 0)
  let score := score + (if metrics.anti_mev_delays.isEmpty then 0 else (15 : Rat))
  min score 100

/-- The weighted sum described by the specification (§3): stealth-mode 20,
MEV-protection 25, randomization-applied 15, multi-path 10, timing-randomized
15, non-empty delay list 15, capped at 100.  Written from the spec's words for
comparison with `calculate_stealth_score`. -/
def specStealthScore (config : BundleConfig) (metrics : StealthMetrics) : Rat :=
  min ((if config.stealth_mode then (20 : Rat) else 0)
    + (if config.mev_protection then (25 : Rat) else 0)
    + (if metrics.randomization_applied then (15 : Rat) else 0)
    + (if metrics.multiple_rpcs_used then (10 : Rat) else 0)
    + (if metrics.timing_randomized then (15 : Rat) else 0)
    + (if metrics.anti_mev_delays.isEmpty then 0 else (15 : Rat))) 100

/-- History commit (src/bundler.rs 196–205 and src/analytics.rs 56–64):
push, then `remove(0)` when the length exceeds 1000. -/
def commitHistory (history : List BundleResult) (r : BundleResult) : List BundleResult :=
  if (history ++ [r]).length > 1000 then (history ++ [r]).drop 1 else history ++ [r]

/-- The execution order: the wallet list, shuffled when `randomize_order`. -/
def executionOrder (env : ExecEnv) (config : BundleConfig) : List String :=
  if config.randomize_order then env.shuffle config.wallets else config.wallets

/-- Assembly of the final `BundleResult` (src/bundler.rs 177–194): the stealth
score is computed over the accumulated metrics, and the metrics are attached
only when stealth mode was requested. -/
def assembleResult (env : ExecEnv) (config : BundleConfig) (out : LoopOut) : BundleResult :=
  let stealth_metrics : StealthMetrics :=
    { randomization_applied := config.randomize_order,
      multiple_rpcs_used := config.use_multiple_rpcs,
      timing_randomized := config.stealth_mode,
      anti_mev_delays := out.anti_mev_delays,
      stealth_score := 0 }
  let stealth_metrics :=
    { stealth_metrics with stealth_score := calculate_stealth_score config stealth_metrics }
  { bundle_id := env.bundle_id,
    bundle_type := config.bundle_type,
    success_count := out.success_count,
    total_transactions := config.wallets.length,
    total_cost := out.total_cost,
    execution_time := env.totalTime,
    transactions := out.transactions,
    stealth_metrics := if config.stealth_mode then some stealth_metrics else none,
    mev_protection_enabled := config.mev_protection,
    timestamp := env.timestamp,
    token_address := config.token_address }

/-- Result of one `execute_bundle` call: the returned value (`Except.error ()`
models the Rust panic), the shared manager state afterwards, the recorded MEV
delays, and the trace of sleeps and operation invocations. -/
structure ExecOutcome where
  result : Except Unit BundleResult
  state : BundleManagerState
  mevDelays : List Nat
  trace : List WaitEvent

/-- `BundleManager::execute_bundle` (src/bundler.rs 76–217).  Note: there is no
input validation; the config is registered in `active_bundles` immediately, and
on normal completion the result is committed to the bounded history and the
active entry removed.  On a panic the active entry survives and the history is
untouched. -/
def executeBundle (env : ExecEnv) (config : BundleConfig) (st : BundleManagerState) :
    ExecOutcome :=
  let bundle_id := env.bundle_id
  let st1 : BundleManagerState :=
    { st with active_bundles := insertA st.active_bundles bundle_id config }
  let execution_order := executionOrder env config
  match execLoop env config execution_order.length 0 execution_order with
  | Except.error () => { result := Except.error (), state := st1, mevDelays := [], trace := [] }
  | Except.ok out =>
    let bundle_result := assembleResult env config out
    let st2 : BundleManagerState :=
      { st1 with bundle_history := commitHistory st1.bundle_history bundle_result }
    let st3 : BundleManagerState :=
      { st2 with active_bundles := eraseA st2.active_bundles bundle_id }
    { result := Except.ok bundle_result, state := st3,
      mevDelays := out.anti_mev_delays, trace := out.trace }

/-- Count of transactions with confirmed status. -/
def countConfirmed (l : List TransactionResult) : Nat :=
  (l.filter (fun t => t.status == "confirmed")).length

/-- The stagger delays occurring in a trace, in order. -/
def staggerDelays (t : List WaitEvent) : List Nat :=
  t.filterMap (fun e => match e with | WaitEvent.staggerWait d => some d | _ => none)

/-- The MEV-protection delays occurring in a trace, in order. -/
def mevWaitDelays (t : List WaitEvent) : List Nat :=
  t.filterMap (fun e => match e with | WaitEvent.mevWait d => some d | _ => none)

/-- Whether a trace event is an operation invocation. -/
def isExec (e : WaitEvent) : Bool :=
  match e with | WaitEvent.exec _ => true | _ => false

/-- The expected shape of the loop trace: per wallet, the optional MEV delay is
slept immediately before the operation is invoked, and the stagger delay (for
stealth mode and `i < n - 1`) immediately after. -/
def expTrace (env : ExecEnv) (config : BundleConfig) (n : Nat) :
    Nat → List String → List WaitEvent
  | _, [] => []
  | i, w :: rest =>
    (if config.mev_protection then
        [WaitEvent.mevWait (calculate_mev_protection_delay env i config.bundle_type)]
      else [])
    ++ [WaitEvent.exec w]
    ++ (if config.stealth_mode ∧ i < n - 1 then
          [WaitEvent.staggerWait (staggerDelayAt env config i)]
        else [])
    ++ expTrace env config n (i + 1) rest

end Bundler

namespace AnalyticsM

open Bundler

/-- `StealthUsageStats` from src/analytics.rs. -/
structure StealthUsageStats where
  bundles_with_stealth : Nat
  average_stealth_score : Rat
  randomization_usage : Nat
  multi_rpc_usage : Nat
deriving Repr, DecidableEq

/-- `MevProtectionStats` from src/analytics.rs. -/
structure MevProtectionStats where
  protected_transactions : Nat
  mev_attacks_blocked : Nat
  average_protection_score : Rat
  frontrun_attempts_detected : Nat
deriving Repr, DecidableEq

/-- `AnalyticsData` from src/analytics.rs (the `HashMap<String, u32>` of
popular bundle types is modelled as an association list). -/
structure AnalyticsData where
  total_bundles : Nat
  successful_transactions : Nat
  failed_transactions : Nat
  total_volume : Rat
  total_fees : Rat
  total_profit_loss : Rat
  success_rate : Rat
  average_execution_time : Rat
  popular_bundle_types : List (String × Nat)
  stealth_usage : StealthUsageStats
  mev_protection_stats : MevProtectionStats
deriving Repr, DecidableEq

/-- The state of `Analytics`: its own bounded bundle history and the running
performance-metrics map. -/
structure AnalyticsState where
  bundle_history : List BundleResult
  performance_metrics : List (String × Rat)
deriving Repr, DecidableEq

/-- The `*popular_bundle_types.entry(t).or_insert(0) += 1` update. -/
def bumpType (m : List (String × Nat)) (t : String) : List (String × Nat) :=
  match m.lookup t with
  | some n => m.map (fun p => if p.1 = t then (p.1, n + 1) else p)
  | none => m ++ [(t, 1)]

/-- `Analytics::calculate_stealth_usage` (src/analytics.rs 144–173). -/
def calculate_stealth_usage (history : List BundleResult) : StealthUsageStats :=
  let bundles_with_stealth := (history.filter (fun b => b.stealth_metrics.isSome)).length
  let average_stealth_score :=
    if bundles_with_stealth > 0 then
      ((history.filterMap (fun b => b.stealth_metrics)).map (fun s => s.stealth_score)).sum
        / (bundles_with_stealth : Rat)
    else 0
  let randomization_usage :=
    (history.filter (fun b =>
      (b.stealth_metrics.map (fun s => s.randomization_applied)).getD false)).length
  let multi_rpc_usage :=
    (history.filter (fun b =>
      (b.stealth_metrics.map (fun s => s.multiple_rpcs_used)).getD false)).length
  { bundles_with_stealth := bundles_with_stealth,
    average_stealth_score := average_stealth_score,
    randomization_usage := randomization_usage,
    multi_rpc_usage := multi_rpc_usage }

/-- `Analytics::calculate_mev_protection_stats` (src/analytics.rs 175–192):
the attack/frontrun counts are simulated as 12% and 6% of the protected
operations, truncated to an integer (`as u32`). -/
def calculate_mev_protection_stats (history : List BundleResult) : MevProtectionStats :=
  let protected_transactions : Nat :=
    ((history.filter (fun b => b.mev_protection_enabled)).map
      (fun b => b.total_transactions)).sum
  let mev_attacks_blocked := (((protected_transactions : Rat) * (12/100)).floor).toNat
  let average_protection_score : Rat := 177/2
  let frontrun_attempts_detected := (((protected_transactions : Rat) * (6/100)).floor).toNat
  { protected_transactions := protected_transactions,
    mev_attacks_blocked := mev_attacks_blocked,
    average_protection_score := average_protection_score,
    frontrun_attempts_detected := frontrun_attempts_detected }

/-- `Analytics::get_analytics_data` (src/analytics.rs 95–142). -/
def getAnalyticsData (s : AnalyticsState) : AnalyticsData :=
  let history := s.bundle_history
  let total_bundles := history.length
  let successful_transactions := (history.map (fun b => b.success_count)).sum
  let total_transactions := (history.map (fun b => b.total_transactions)).sum
  let failed_transactions := total_transactions - successful_transactions
  let total_volume := (history.map (fun b => b.total_cost)).sum
  let total_fees := total_volume * (2/100)
  let total_profit_loss := total_volume * (5/100) - total_fees
  let success_rate :=
    if total_transactions > 0 then
      ((successful_transactions : Rat) / (total_transactions : Rat)) * 100
    else 0
  let average_execution_time := (s.performance_metrics.lookup "avg_execution_time").getD 0
  let popular_bundle_types := (history.map (fun b => b.bundle_type)).foldl bumpType []
  let stealth_usage := calculate_stealth_usage history
  let mev_protection_stats := calculate_mev_protection_stats history
  { total_bundles := total_bundles,
    successful_transactions := successful_transactions,
    failed_transactions := failed_transactions,
    total_volume := total_volume,
    total_fees := total_fees,
    total_profit_loss := total_profit_loss,
    success_rate := success_rate,
    average_execution_time := average_execution_time,
    popular_bundle_types := popular_bundle_types,
    stealth_usage := stealth_usage,
    mev_protection_stats := mev_protection_stats }

/-- One call to `get_analytics_data`: the method takes `&self` and only
acquires read locks, so the state is returned unchanged. -/
def getAnalyticsDataCall (s : AnalyticsState) : AnalyticsData × AnalyticsState :=
  (getAnalyticsData s, s)

/-- Total volume stored in the analytics history (sum of `total_cost`). -/
def totalVolumeOf (s : AnalyticsState) : Rat :=
  (s.bundle_history.map (fun b => b.total_cost)).sum

/-- Total operations across bundles with MEV protection enabled. -/
def protectedOpsOf (s : AnalyticsState) : Nat :=
  ((s.bundle_history.filter (fun b => b.mev_protection_enabled)).map
    (fun b => b.total_transactions)).sum

end AnalyticsM

namespace Mev

/-- `MevProtection::detect_frontrunning_risk` (src/mev_protection.rs 89–115).
`stats` is the `network_stats` map; `randDraw` embeds the final
`gen_range(0.0..0.1)` call, so a run of the Rust code corresponds to some
`randDraw` with `0 ≤ randDraw < 1/10`.  The score is capped above at 1 but has
no lower clamp. -/
def detect_frontrunning_risk (stats : List (String × Rat)) (token_address : String)
    (amount : Rat) (randDraw : Rat) : Rat :=
  let risk_score : Rat := 0
  let risk_score := if amount > 10 then risk_score + 3/10 else risk_score
  let risk_score := risk_score +
    (match stats.lookup ("popularity_" ++ token_address) with
     | some popularity => popularity * (2/10)
     | none => 0)
  let risk_score := risk_score +
    (match stats.lookup "network_congestion" with
     | some congestion => congestion * (4/10)
     | none => 0)
  let risk_score := risk_score + randDraw
  min risk_score 1

/-- `MevProtection::is_transaction_safe` (src/mev_protection.rs 145–150):
recomputes the risk (with a fresh random draw) and compares against 0.7. -/
def is_transaction_safe (stats : List (String × Rat)) (token_address : String)
    (amount : Rat) (randDraw : Rat) : Bool :=
  detect_frontrunning_risk stats token_address amount randDraw < 7/10

end Mev

namespace BundleV

/-- `BundleSettings` from src/bundle.rs. -/
structure BundleSettings where
  priority_fee : Rat
  slippage : Rat
  stagger_delay : Nat
  stealth_mode : Bool
  mev_protection : Bool
deriving Repr, DecidableEq

/-- `BundleRequest` from src/bundle.rs. -/
structure BundleRequest where
  bundle_type : String
  token_address : Option String
  amount_per_wallet : Rat
  wallets : List String
  settings : BundleSettings
deriving Repr, DecidableEq

/-- `TransactionResult` from src/bundle.rs. -/
structure TransactionResult where
  wallet : String
  signature : Option String
  status : String
  amount : Rat
  fee : Rat
  error : Option String
  execution_time_ms : Nat
deriving Repr, DecidableEq

/-- `BundleResult` from src/bundle.rs. -/
structure BundleResult where
  bundle_id : String
  bundle_type : String
  success_count : Nat
  total_transactions : Nat
  transactions : List TransactionResult
  execution_time_ms : Nat
  total_cost : Rat
  timestamp : String
deriving Repr, DecidableEq

/-- State of this `BundleManager` variant: the `bundles` map of finished
results keyed by bundle id. -/
structure ManagerState where
  bundles : List (String × BundleResult)
deriving Repr, DecidableEq

/-- Oracle for the random draws, the wallet store, and the clock used by this
variant. -/
structure Env where
  bundle_id : String
  timestamp : String
  hasKeypair : String → Bool
  successDraw : Nat → Rat
  sigDraw : Nat → String
  jitter : Nat → Rat
  stepTime : Nat → Nat
  totalTime : Nat

/-- `BundleManager::simulate_buy_transaction` (95% success rate). -/
def simulate_buy_transaction (env : Env) (i : Nat) (amount : Rat)
    (settings : BundleSettings) : Except String (String × Rat × Rat) :=
  if env.successDraw i > 5/100 then
    Except.ok (env.sigDraw i, amount, settings.priority_fee)
  else
    Except.error "Buy transaction failed - slippage exceeded"

/-- `BundleManager::simulate_sell_transaction` (97% success rate, slippage
applied to the amount). -/
def simulate_sell_transaction (env : Env) (i : Nat) (amount : Rat)
    (settings : BundleSettings) : Except String (String × Rat × Rat) :=
  if env.successDraw i > 3/100 then
    let slippage_factor := 1 - settings.slippage / 100
    Except.ok (env.sigDraw i, amount * slippage_factor, settings.priority_fee)
  else
    Except.error "Sell transaction failed - insufficient liquidity"

/-- `BundleManager::simulate_distribute_transaction` (99% success rate). -/
def simulate_distribute_transaction (env : Env) (i : Nat) (amount : Rat)
    (settings : BundleSettings) : Except String (String × Rat × Rat) :=
  if env.successDraw i > 1/100 then
    Except.ok (env.sigDraw i, amount, settings.priority_fee)
  else
    Except.error "Distribution failed - network error"

/-- `BundleManager::simulate_volume_transaction` (98% success rate). -/
def simulate_volume_transaction (env : Env) (i : Nat) (amount : Rat)
    (settings : BundleSettings) : Except String (String × Rat × Rat) :=
  if env.successDraw i > 2/100 then
    Except.ok (env.sigDraw i, amount, settings.priority_fee)
  else
    Except.error "Volume transaction failed"

/-- `BundleManager::execute_transaction` (src/bundle.rs 204–236): keypair
lookup, then dispatch on the bundle type; any type outside
buy/sell/distribute/volume is an error. -/
def execute_transaction (env : Env) (i : Nat) (bundle_type : String)
    (wallet_address : String) (amount : Rat) (settings : BundleSettings) :
    Except String (String × Rat × Rat) :=
  if env.hasKeypair wallet_address then
    match bundle_type with
    | "buy" => simulate_buy_transaction env i amount settings
    | "sell" => simulate_sell_transaction env i amount settings
    | "distribute" => simulate_distribute_transaction env i amount settings
    | "volume" => simulate_volume_transaction env i amount settings
    | _ => Except.error ("Unsupported bundle type: " ++ bundle_type)
  else
    Except.error ("Wallet not found: " ++ wallet_address)

/-- How `execute_bundle` can fail in this variant: the two validation errors,
or the `&wallet_address[..8]` logging panic inside the loop. -/
inductive VErr where
  | validation (msg : String)
  | panic
deriving Repr, DecidableEq

/-- The `delay_ms` slept at loop index `i` (src/bundle.rs 100–107): the base
stagger delay times a `0.5..1.5` jitter draw when MEV protection is enabled,
and the unmodified base stagger delay otherwise (the float→integer cast
truncates, i.e. floors, nonnegative values). -/
def staggerDelayV (env : Env) (request : BundleRequest) (i : Nat) : Nat :=
  if request.settings.mev_protection then
    (((request.settings.stagger_delay : Rat)) * env.jitter i).floor.toNat
  else request.settings.stagger_delay

/-- The stagger sleep performed at loop index `i` (src/bundle.rs 98–110):
present only under stealth mode and for `index > 0`. -/
def staggerStepV (env : Env) (request : BundleRequest) (i : Nat) : List Nat :=
  if request.settings.stealth_mode ∧ i > 0 then [staggerDelayV env request i] else []

/-- The bounds the stagger jitter generator (`gen_range(0.5..1.5)`)
guarantees for this variant. -/
def EnvSoundV (env : Env) : Prop :=
  ∀ i, (1 : Rat)/2 ≤ env.jitter i ∧ env.jitter i < 3/2

/-- The expected sequence of stagger delays slept by the loop, starting at
index `i`, in execution order. -/
def expStagV (env : Env) (request : BundleRequest) : Nat → List String → List Nat
  | _, [] => []
  | i, _ :: rest => staggerStepV env request i ++ expStagV env request (i + 1) rest

/-- One step of the `match tx_result` block of src/bundle.rs (lines 123–174):
the `TransactionResult` pushed, the increment to `success_count`, and the
increment to `total_cost`. -/
def stepOutcomeV (env : Env) (request : BundleRequest) (i : Nat) (w : String) :
    TransactionResult × Nat × Rat :=
  match execute_transaction env i request.bundle_type w request.amount_per_wallet
      request.settings with
  | Except.ok (signature, actual_amount, fee) =>
      ({ wallet := w, signature := some signature, status := "confirmed",
         amount := actual_amount, fee := fee, error := none,
         execution_time_ms := env.stepTime i }, 1, actual_amount + fee)
  | Except.error e =>
      ({ wallet := w, signature := none, status := "failed",
         amount := request.amount_per_wallet, fee := 0, error := some e,
         execution_time_ms := env.stepTime i }, 0, 0)

/-- The per-wallet loop of src/bundle.rs `execute_bundle` (lines 95–175): for
`index > 0` under stealth mode a stagger delay is slept before the operation
(jittered by a `0.5..1.5` draw only when MEV protection is also enabled),
then the operation executes and the result is recorded; the
`&wallet_address[..8]` log slice panics for wallet ids shorter than 8 bytes.
The fourth component records the sleeps and operation invocations, in
program order. -/
def execLoopV (env : Env) (request : BundleRequest) :
    Nat → List String →
      Except Unit (List TransactionResult × Nat × Rat × List Bundler.WaitEvent)
  | _, [] => Except.ok ([], 0, 0, [])
  | i, w :: rest =>
    let s := stepOutcomeV env request i w
    if w.utf8ByteSize < 8 then Except.error ()
    else
      match execLoopV env request (i + 1) rest with
      | Except.error () => Except.error ()
      | Except.ok out =>
          Except.ok (s.1 :: out.1, s.2.1 + out.2.1, s.2.2 + out.2.2.1,
            (staggerStepV env request i).map Bundler.WaitEvent.staggerWait
              ++ [Bundler.WaitEvent.exec w] ++ out.2.2.2)

/-- `BundleManager::execute_bundle` (src/bundle.rs 69–202): validation of the
wallet list and the per-wallet amount happens before any state mutation; on
normal completion the result is inserted into the `bundles` map. -/
def execute_bundle (env : Env) (request : BundleRequest) (st : ManagerState) :
    Except VErr BundleResult × ManagerState :=
  if request.wallets.isEmpty then
    (Except.error (VErr.validation "No wallets provided for bundle"), st)
  else if request.amount_per_wallet ≤ 0 then
    (Except.error (VErr.validation "Invalid amount per wallet"), st)
  else
    match execLoopV env request 0 request.wallets with
    | Except.error () => (Except.error VErr.panic, st)
    | Except.ok (transactions, success_count, total_cost, _) =>
      let bundle_result : BundleResult :=
        { bundle_id := env.bundle_id,
          bundle_type := request.bundle_type,
          success_count := success_count,
          total_transactions := request.wallets.length,
          transactions := transactions,
          execution_time_ms := env.totalTime,
          total_cost := total_cost,
          timestamp := env.timestamp }
      (Except.ok bundle_result, ⟨(env.bundle_id, bundle_result) :: st.bundles⟩)

end BundleV

namespace Bundler

/-- The last `n` entries of a list. -/
def lastN {α : Type} (n : Nat) (l : List α) : List α :=
  l.drop (l.length - n)

/-- Whether any stagger wait occurs in a trace before the first operation
invocation. -/
def staggerBeforeFirstExec (t : List WaitEvent) : Bool :=
  (t.takeWhile (fun e => !(isExec e))).any
    (fun e => match e with | WaitEvent.staggerWait _ => true | _ => false)

end Bundler

/-- A deterministic oracle used to instantiate the claim theorems at concrete
inputs: identity shuffle, `gen_range` returns the lower bound, unit jitter,
and a success draw of 1 (all simulated operations succeed). -/
def defaultEnv : Bundler.ExecEnv :=
  { bundle_id := "bundle-0001", timestamp := "2024-01-01T00:00:00Z",
    shuffle := fun l => l, genRange := fun _ lo _ => lo, jitter := fun _ => 1,
    successDraw := fun _ => 1, sigDraw := fun _ => "SIG",
    blockHeight := fun _ => 1500000, stepTime := fun _ => 5, totalTime := 42 }

/-- A deterministic oracle for the src/bundle.rs variant: every wallet has a
keypair, all draws succeed. -/
def defaultEnvV : BundleV.Env :=
  { bundle_id := "bundle-0002", timestamp := "2024-01-01T00:00:00Z",
    hasKeypair := fun _ => true, successDraw := fun _ => 1, sigDraw := fun _ => "SIG",
    jitter := fun _ => 1, stepTime := fun _ => 5, totalTime := 42 }

/-- A minimal `BundleResult` used to instantiate hypotheses of the claim
theorems at concrete inputs. -/
def sampleResult (id : String) : Bundler.BundleResult :=
  { bundle_id := id, bundle_type := "buy", success_count := 0, total_transactions := 0,
    total_cost := 0, execution_time := 0, transactions := [], stealth_metrics := none,
    mev_protection_enabled := false, timestamp := "t", token_address := none }

/-- The empty initial manager state. -/
def st0 : Bundler.BundleManagerState := ⟨[], []⟩

/-- A config with an empty wallet list (and an otherwise harmless payload):
the spec demands this be rejected by validation. -/
def cfgEmptyWallets : Bundler.BundleConfig :=
  { bundle_type := "buy", token_address := none, amount_per_wallet := 1,
    wallets := [], stealth_mode := false, mev_protection := false,
    priority_fee := 0, slippage := 0, stagger_delay := 100, randomize_order := false,
    use_multiple_rpcs := false, anti_mev_delay := none }

/-- A full-featured valid config (stealth + MEV protection, two 8-byte
wallets) used to instantiate the confirmed claims. -/
def cfgFull : Bundler.BundleConfig :=
  { bundle_type := "buy", token_address := some "tok", amount_per_wallet := 1,
    wallets := ["walletAA", "walletBB"], stealth_mode := true, mev_protection := true,
    priority_fee := 1, slippage := 1, stagger_delay := 100, randomize_order := true,
    use_multiple_rpcs := true, anti_mev_delay := none }

/-- A valid config with stealth mode disabled, two wallets, and a non-zero
base stagger delay (the C6 counterexample input). -/
def cfgNoStealth : Bundler.BundleConfig :=
  { bundle_type := "buy", token_address := none, amount_per_wallet := 1,
    wallets := ["walletAA", "walletBB"], stealth_mode := false, mev_protection := false,
    priority_fee := 0, slippage := 0, stagger_delay := 100, randomize_order := false,
    use_multiple_rpcs := false, anti_mev_delay := none }

/-- A valid config whose bundle type is outside the six enumerated operation
kinds (the C7 counterexample input). -/
def cfgUnknownKind : Bundler.BundleConfig :=
  { bundle_type := "transfer", token_address := none, amount_per_wallet := 1,
    wallets := ["walletAA"], stealth_mode := false, mev_protection := false,
    priority_fee := 0, slippage := 0, stagger_delay := 0, randomize_order := false,
    use_multiple_rpcs := false, anti_mev_delay := none }

/-- A valid config containing a wallet identifier of only 2 bytes (the C10
input). -/
def cfgShortWallet : Bundler.BundleConfig :=
  { bundle_type := "buy", token_address := none, amount_per_wallet := 1,
    wallets := ["w1"], stealth_mode := false, mev_protection := false,
    priority_fee := 0, slippage := 0, stagger_delay := 0, randomize_order := false,
    use_multiple_rpcs := false, anti_mev_delay := none }

/-- Default settings for the src/bundle.rs variant. -/
def sampleSettings : BundleV.BundleSettings :=
  { priority_fee := 1, slippage := 1, stagger_delay := 100,
    stealth_mode := false, mev_protection := false }

/-- A request with an empty wallet list for the src/bundle.rs variant. -/
def reqEmptyWallets : BundleV.BundleRequest :=
  { bundle_type := "buy", token_address := none, amount_per_wallet := 1,
    wallets := [], settings := sampleSettings }

/-- A two-wallet request for the src/bundle.rs variant with stealth mode on
and MEV protection off: its stagger delay must be the unmodified base. -/
def reqStealthNoMev : BundleV.BundleRequest :=
  { bundle_type := "buy", token_address := none, amount_per_wallet := 1,
    wallets := ["walletAB", "walletCD"],
    settings := { priority_fee := 1, slippage := 1, stagger_delay := 100,
                  stealth_mode := true, mev_protection := false } }

namespace Bundler

theorem lastN_of_le {α : Type} (n : Nat) (a : List α) (h : a.length ≤ n) :
    lastN n a = a := by
  unfold lastN
  rw [Nat.sub_eq_zero_of_le h, List.drop_zero]

theorem lastN_lastN_append {α : Type} (n : Nat) (a b : List α) :
    lastN n (lastN n a ++ b) = lastN n (a ++ b) := by
  rcases le_or_lt a.length n with h | h
  · rw [lastN_of_le n a h]
  · unfold lastN
    rw [← List.drop_append_of_le_length (show a.length - n ≤ a.length by omega)]
    rw [List.drop_drop]
    congr 1
    simp only [List.length_drop, List.length_append]
    omega

theorem commitHistory_length_le (h : List BundleResult) (r : BundleResult)
    (hle : h.length ≤ 1000) : (commitHistory h r).length ≤ 1000 := by
  unfold commitHistory
  split
  · simp only [List.length_drop, List.length_append, List.length_cons, List.length_nil]
    omega
  · next hc =>
    simp only [List.length_append, List.length_cons, List.length_nil] at hc ⊢
    omega

theorem commitHistory_eq_lastN (h : List BundleResult) (r : BundleResult)
    (hle : h.length ≤ 1000) : commitHistory h r = lastN 1000 (h ++ [r]) := by
  unfold commitHistory lastN
  split
  · next hc =>
    simp only [List.length_append, List.length_cons, List.length_nil] at hc ⊢
    rw [show h.length + 1 - 1000 = 1 by omega]
  · next hc =>
    simp only [List.length_append, List.length_cons, List.length_nil] at hc ⊢
    rw [show h.length + 1 - 1000 = 0 by omega, List.drop_zero]

theorem commitHistory_getLast (h : List BundleResult) (r : BundleResult) :
    (commitHistory h r).getLast? = some r := by
  unfold commitHistory
  split
  · next hc =>
    simp only [List.length_append, List.length_cons, List.length_nil] at hc
    rw [List.drop_append_of_le_length (show 1 ≤ h.length by omega)]
    simp
  · simp

theorem commitHistory_at_capacity (h : List BundleResult) (r : BundleResult)
    (hlen : h.length = 1000) : commitHistory h r = h.drop 1 ++ [r] := by
  unfold commitHistory
  rw [if_pos (show (h ++ [r]).length > 1000 by
    simp only [List.length_append, List.length_cons, List.length_nil, hlen]; omega)]
  rw [List.drop_append_of_le_length (by omega)]

theorem foldl_commitHistory (l : List BundleResult) :
    ∀ acc : List BundleResult, acc.length ≤ 1000 →
      List.foldl commitHistory acc l = lastN 1000 (acc ++ l) := by
  induction l with
  | nil =>
    intro acc h
    rw [List.foldl_nil, List.append_nil, lastN_of_le 1000 acc h]
  | cons r l ih =>
    intro acc h
    rw [List.foldl_cons, ih _ (commitHistory_length_le acc r h),
      commitHistory_eq_lastN acc r h, lastN_lastN_append]
    simp

theorem foldl_commitHistory_overflow (r : BundleResult) (rest : List BundleResult)
    (hlen : rest.length = 1000) :
    List.foldl commitHistory [] (r :: rest) = rest := by
  rw [foldl_commitHistory _ [] (by simp)]
  unfold lastN
  simp [hlen]

theorem execLoop_cons (env : ExecEnv) (config : BundleConfig) (n i : Nat) (w : String)
    (rest : List String) :
    execLoop env config n i (w :: rest) =
      if w.utf8ByteSize < 8 then Except.error ()
      else
        match execLoop env config n (i + 1) rest with
        | Except.error () => Except.error ()
        | Except.ok out =>
          Except.ok ⟨(stepOutcome env config i w).1 :: out.transactions,
                     (stepOutcome env config i w).2.1 + out.success_count,
                     (stepOutcome env config i w).2.2 + out.total_cost,
                     (if config.mev_protection then
                         [calculate_mev_protection_delay env i config.bundle_type]
                       else []) ++ out.anti_mev_delays,
                     (if config.mev_protection then
                         [calculate_mev_protection_delay env i config.bundle_type]
                       else []).map WaitEvent.mevWait
                       ++ [WaitEvent.exec w]
                       ++ (if config.stealth_mode ∧ i < n - 1 then
                             [staggerDelayAt env config i]
                           else []).map WaitEvent.staggerWait
                       ++ out.trace⟩ := rfl

theorem execLoop_total (env : ExecEnv) (config : BundleConfig) (n : Nat)
    (ws : List String) : ∀ (i : Nat), (∀ w ∈ ws, ¬ w.utf8ByteSize < 8) →
      ∃ out, execLoop env config n i ws = Except.ok out := by
  induction ws with
  | nil => exact fun i _ => ⟨_, rfl⟩
  | cons w rest ih =>
    intro i hw
    obtain ⟨out, hout⟩ := ih (i + 1) (fun x hx => hw x (List.mem_cons_of_mem _ hx))
    have hby := hw w (List.mem_cons_self _ _)
    simp [execLoop_cons, hout, hby]

theorem stepOutcome_wallet (env : ExecEnv) (config : BundleConfig) (i : Nat) (w : String) :
    (stepOutcome env config i w).1.wallet = w := by
  unfold stepOutcome
  split <;> rfl

theorem stepOutcome_succ_status (env : ExecEnv) (config : BundleConfig) (i : Nat)
    (w : String) :
    ((stepOutcome env config i w).2.1 = 1 ∧ (stepOutcome env config i w).1.status = "confirmed")
    ∨ ((stepOutcome env config i w).2.1 = 0 ∧ (stepOutcome env config i w).1.status = "failed") := by
  unfold stepOutcome
  split
  · exact Or.inl ⟨rfl, rfl⟩
  · exact Or.inr ⟨rfl, rfl⟩

theorem countConfirmed_cons (t : TransactionResult) (l : List TransactionResult) :
    countConfirmed (t :: l) = (if t.status == "confirmed" then 1 else 0) + countConfirmed l := by
  unfold countConfirmed
  rw [List.filter_cons]
  split <;> simp [Nat.add_comm]

theorem countConfirmed_le (l : List TransactionResult) : countConfirmed l ≤ l.length :=
  List.length_filter_le _ l

theorem execLoop_transactions (env : ExecEnv) (config : BundleConfig) (n : Nat)
    (ws : List String) : ∀ (i : Nat) (out : LoopOut),
      execLoop env config n i ws = Except.ok out →
      out.transactions.map (fun t => t.wallet) = ws ∧
      out.transactions.length = ws.length ∧
      out.success_count = countConfirmed out.transactions := by
  induction ws with
  | nil =>
    intro i out h
    cases h
    refine ⟨rfl, rfl, rfl⟩
  | cons w rest ih =>
    intro i out h
    rw [execLoop_cons] at h
    split at h
    · cases h
    · rename_i hby
      cases hrec : execLoop env config n (i + 1) rest with
      | error u =>
        cases u
        rw [hrec] at h
        cases h
      | ok out1 =>
        rw [hrec] at h
        simp only [Except.ok.injEq] at h
        subst h
        obtain ⟨ih1, ih2, ih3⟩ := ih (i + 1) out1 hrec
        refine ⟨?_, ?_, ?_⟩
        · simp [stepOutcome_wallet, ih1]
        · simp [ih2]
        · rw [countConfirmed_cons]
          rcases stepOutcome_succ_status env config i w with ⟨h1, h2⟩ | ⟨h1, h2⟩ <;>
            simp [h1, h2, ih3]

theorem range_map_shift {β : Type} (g : Nat → β) (m i : Nat) :
    (List.range (m + 1)).map (fun k => g (i + k)) =
      g i :: (List.range m).map (fun k => g (i + 1 + k)) := by
  rw [List.range_succ_eq_map, List.map_cons, List.map_map]
  refine congrArg₂ _ (by rw [Nat.add_zero]) ?_
  apply congrFun
  apply congrArg
  funext k
  simp only [Function.comp_apply]
  congr 1
  omega

theorem expTrace_cons (env : ExecEnv) (config : BundleConfig) (n i : Nat) (w : String)
    (rest : List String) :
    expTrace env config n i (w :: rest) =
      (if config.mev_protection then
          [WaitEvent.mevWait (calculate_mev_protection_delay env i config.bundle_type)]
        else [])
      ++ [WaitEvent.exec w]
      ++ (if config.stealth_mode ∧ i < n - 1 then
            [WaitEvent.staggerWait (staggerDelayAt env config i)]
          else [])
      ++ expTrace env config n (i + 1) rest := rfl

theorem execLoop_mevDelays (env : ExecEnv) (config : BundleConfig) (n : Nat)
    (ws : List String) : ∀ (i : Nat) (out : LoopOut),
      execLoop env config n i ws = Except.ok out →
      out.anti_mev_delays =
        if config.mev_protection then
          (List.range ws.length).map
            (fun k => calculate_mev_protection_delay env (i + k) config.bundle_type)
        else [] := by
  induction ws with
  | nil =>
    intro i out h
    cases h
    split <;> rfl
  | cons w rest ih =>
    intro i out h
    rw [execLoop_cons] at h
    split at h
    · cases h
    · cases hrec : execLoop env config n (i + 1) rest with
      | error u =>
        cases u
        rw [hrec] at h
        cases h
      | ok out1 =>
        rw [hrec] at h
        simp only [Except.ok.injEq] at h
        subst h
        have ih1 := ih (i + 1) out1 hrec
        by_cases hm : config.mev_protection
        · simp only [hm, if_true, List.length_cons]
          rw [range_map_shift
            (fun x => calculate_mev_protection_delay env x config.bundle_type) rest.length i]
          simp [ih1, hm]
        · simp [hm, ih1]

theorem execLoop_trace (env : ExecEnv) (config : BundleConfig) (n : Nat)
    (ws : List String) : ∀ (i : Nat) (out : LoopOut),
      execLoop env config n i ws = Except.ok out →
      out.trace = expTrace env config n i ws := by
  induction ws with
  | nil =>
    intro i out h
    cases h
    rfl
  | cons w rest ih =>
    intro i out h
    rw [execLoop_cons] at h
    split at h
    · cases h
    · cases hrec : execLoop env config n (i + 1) rest with
      | error u =>
        cases u
        rw [hrec] at h
        cases h
      | ok out1 =>
        rw [hrec] at h
        simp only [Except.ok.injEq] at h
        subst h
        have ih1 := ih (i + 1) out1 hrec
        show _ ++ _ ++ _ ++ out1.trace = expTrace env config n i (w :: rest)
        rw [ih1, expTrace_cons]
        by_cases hm : config.mev_protection <;>
          by_cases hs : config.stealth_mode ∧ i < n - 1 <;>
            simp [hm, hs]

theorem staggerDelays_append (a b : List WaitEvent) :
    staggerDelays (a ++ b) = staggerDelays a ++ staggerDelays b := by
  unfold staggerDelays
  rw [List.filterMap_append]

theorem mevWaitDelays_append (a b : List WaitEvent) :
    mevWaitDelays (a ++ b) = mevWaitDelays a ++ mevWaitDelays b := by
  unfold mevWaitDelays
  rw [List.filterMap_append]

theorem mevWaitDelays_expTrace (env : ExecEnv) (config : BundleConfig) (n : Nat)
    (ws : List String) : ∀ (i : Nat),
      mevWaitDelays (expTrace env config n i ws) =
        if config.mev_protection then
          (List.range ws.length).map
            (fun k => calculate_mev_protection_delay env (i + k) config.bundle_type)
        else [] := by
  induction ws with
  | nil =>
    intro i
    split <;> rfl
  | cons w rest ih =>
    intro i
    rw [expTrace_cons, mevWaitDelays_append, mevWaitDelays_append, mevWaitDelays_append,
      ih (i + 1)]
    by_cases hm : config.mev_protection
    · simp only [hm, if_true, List.length_cons]
      rw [range_map_shift
        (fun x => calculate_mev_protection_delay env x config.bundle_type) rest.length i]
      by_cases hs : config.stealth_mode ∧ i < n - 1 <;> simp [hm, hs, mevWaitDelays]
    · by_cases hs : config.stealth_mode ∧ i < n - 1 <;> simp [hm, hs, mevWaitDelays]

theorem staggerDelays_expTrace (env : ExecEnv) (config : BundleConfig) (n : Nat)
    (ws : List String) : ∀ (i : Nat), i + ws.length = n →
      staggerDelays (expTrace env config n i ws) =
        if config.stealth_mode then
          (List.range (ws.length - 1)).map (fun k => staggerDelayAt env config (i + k))
        else [] := by
  induction ws with
  | nil =>
    intro i _
    split <;> rfl
  | cons w rest ih =>
    intro i hn
    simp only [List.length_cons] at hn
    rw [expTrace_cons, staggerDelays_append, staggerDelays_append, staggerDelays_append,
      ih (i + 1) (by omega)]
    by_cases hs : config.stealth_mode
    · cases rest with
      | nil =>
        simp only [List.length_nil] at hn
        have hni : ¬ (config.stealth_mode ∧ i < n - 1) := by
          intro hc
          omega
        by_cases hm : config.mev_protection <;>
          simp [hs, hm, hni, staggerDelays] <;> omega
      | cons w2 rest2 =>
        have hlt : i < n - 1 := by
          simp only [List.length_cons] at hn
          omega
        rw [if_pos (And.intro hs hlt)]
        simp only [List.length_cons, Nat.add_sub_cancel]
        rw [range_map_shift (fun x => staggerDelayAt env config x) rest2.length i]
        by_cases hm : config.mev_protection <;> simp [hs, hm, staggerDelays]
    · have hni : ¬ (config.stealth_mode ∧ i < n - 1) := fun hc => hs hc.1
      by_cases hm : config.mev_protection <;> simp [hs, hm, hni, staggerDelays]

theorem staggerBeforeFirstExec_expTrace (env : ExecEnv) (config : BundleConfig)
    (n : Nat) (ws : List String) (i : Nat) :
    staggerBeforeFirstExec (expTrace env config n i ws) = false := by
  cases ws with
  | nil => rfl
  | cons w rest =>
    rw [expTrace_cons]
    by_cases hm : config.mev_protection <;>
      simp [hm, staggerBeforeFirstExec, isExec, List.takeWhile]

theorem executeBundle_ok_eq (env : ExecEnv) (config : BundleConfig)
    (st : BundleManagerState) (out : LoopOut)
    (h : execLoop env config (executionOrder env config).length 0 (executionOrder env config)
         = Except.ok out) :
    executeBundle env config st =
      { result := Except.ok (assembleResult env config out),
        state := { bundle_history :=
                     commitHistory st.bundle_history (assembleResult env config out),
                   active_bundles :=
                     eraseA (insertA st.active_bundles env.bundle_id config) env.bundle_id },
        mevDelays := out.anti_mev_delays,
        trace := out.trace } := by
  unfold executeBundle
  simp only [h]

theorem executeBundle_panic_eq (env : ExecEnv) (config : BundleConfig)
    (st : BundleManagerState)
    (h : execLoop env config (executionOrder env config).length 0 (executionOrder env config)
         = Except.error ()) :
    executeBundle env config st =
      { result := Except.error (),
        state := { bundle_history := st.bundle_history,
                   active_bundles := insertA st.active_bundles env.bundle_id config },
        mevDelays := [],
        trace := [] } := by
  unfold executeBundle
  simp only [h]

theorem assembleResult_metrics (env : ExecEnv) (config : BundleConfig) (out : LoopOut) :
    (assembleResult env config out).stealth_metrics =
      if config.stealth_mode then
        some { randomization_applied := config.randomize_order,
               multiple_rpcs_used := config.use_multiple_rpcs,
               timing_randomized := config.stealth_mode,
               anti_mev_delays := out.anti_mev_delays,
               stealth_score := calculate_stealth_score config
                 { randomization_applied := config.randomize_order,
                   multiple_rpcs_used := config.use_multiple_rpcs,
                   timing_randomized := config.stealth_mode,
                   anti_mev_delays := out.anti_mev_delays,
                   stealth_score := 0 } }
      else none := rfl

theorem calculate_mev_protection_delay_eq (env : ExecEnv) (i : Nat) (bt : String) :
    calculate_mev_protection_delay env i bt =
      env.genRange i (mevRange bt).1 (mevRange bt).2 := by
  unfold calculate_mev_protection_delay mevRange
  split <;> simp_all

theorem mevRange_lt (bt : String) : (mevRange bt).1 < (mevRange bt).2 := by
  unfold mevRange
  split <;> norm_num

end Bundler

theorem defaultEnv_sound (config : Bundler.BundleConfig) :
    Bundler.EnvSound defaultEnv config := by
  refine ⟨List.Perm.refl _, fun i lo hi h => ⟨le_refl lo, h⟩, fun i => ⟨?_, ?_⟩⟩ <;>
    norm_num [defaultEnv]

/-- C2: every commit keeps the history at ≤ 1000 entries and appends the new
result at the end; a commit at capacity evicts exactly the oldest entry
(FIFO); and after 1001 distinct commits into an empty store the snapshot has
exactly 1000 entries and no longer contains the first-committed bundle id. -/
theorem c2_history_capacity :
    (∀ (h : List Bundler.BundleResult) (r : Bundler.BundleResult), h.length ≤ 1000 →
        (Bundler.commitHistory h r).length ≤ 1000 ∧
        (Bundler.commitHistory h r).getLast? = some r) ∧
    (∀ (h : List Bundler.BundleResult) (r : Bundler.BundleResult), h.length = 1000 →
        Bundler.commitHistory h r = h.drop 1 ++ [r]) ∧
    (∀ (r : Bundler.BundleResult) (rest : List Bundler.BundleResult),
        rest.length = 1000 → r.bundle_id ∉ rest.map (fun x => x.bundle_id) →
        List.foldl Bundler.commitHistory [] (r :: rest) = rest ∧
        (List.foldl Bundler.commitHistory [] (r :: rest)).length = 1000 ∧
        r.bundle_id ∉ (List.foldl Bundler.commitHistory [] (r :: rest)).map
          (fun x => x.bundle_id)) := by
  refine ⟨fun h r hle => ⟨Bundler.commitHistory_length_le h r hle,
    Bundler.commitHistory_getLast h r⟩,
    fun h r hlen => Bundler.commitHistory_at_capacity h r hlen,
    fun r rest hlen hid => ?_⟩
  have he := Bundler.foldl_commitHistory_overflow r rest hlen
  exact ⟨he, by rw [he, hlen], by rw [he]; exact hid⟩

/-- Witness for C2 at a concrete 1000-entry history and a 1001st distinct
commit. -/
theorem c2_history_capacity_witness :
    (Bundler.commitHistory (List.replicate 1000 (sampleResult "a")) (sampleResult "b")).length
      ≤ 1000 ∧
    Bundler.commitHistory (List.replicate 1000 (sampleResult "a")) (sampleResult "b") =
      (List.replicate 1000 (sampleResult "a")).drop 1 ++ [sampleResult "b"] ∧
    List.foldl Bundler.commitHistory []
        (sampleResult "b" :: List.replicate 1000 (sampleResult "a")) =
      List.replicate 1000 (sampleResult "a") := by
  have hlen : (List.replicate 1000 (sampleResult "a")).length = 1000 :=
    List.length_replicate 1000 _
  have hnot : (sampleResult "b").bundle_id ∉
      (List.replicate 1000 (sampleResult "a")).map (fun x => x.bundle_id) := by
    rw [List.map_replicate]
    intro hmem
    exact absurd (List.eq_of_mem_replicate hmem) (by decide)
  refine ⟨(c2_history_capacity.1 _ _ (le_of_eq hlen)).1, ?_, ?_⟩
  · exact c2_history_capacity.2.1 _ _ hlen
  · exact (c2_history_capacity.2.2 (sampleResult "b") _ hlen hnot).1

namespace Bundler

theorem executionOrder_perm (env : ExecEnv) (config : BundleConfig)
    (hEnv : EnvSound env config) :
    (executionOrder env config).Perm config.wallets := by
  unfold executionOrder
  split
  · exact hEnv.1
  · exact List.Perm.refl _

theorem executeBundle_runs (env : ExecEnv) (config : BundleConfig)
    (hEnv : EnvSound env config)
    (hw : ∀ w ∈ config.wallets, ¬ w.utf8ByteSize < 8) :
    ∃ out, execLoop env config (executionOrder env config).length 0
      (executionOrder env config) = Except.ok out := by
  apply execLoop_total
  intro w hmem
  exact hw w ((executionOrder_perm env config hEnv).mem_iff.mp hmem)

theorem executeBundle_result_ok (env : ExecEnv) (config : BundleConfig)
    (st : BundleManagerState) (r : BundleResult)
    (h : (executeBundle env config st).result = Except.ok r) :
    ∃ out, execLoop env config (executionOrder env config).length 0
        (executionOrder env config) = Except.ok out ∧
      r = assembleResult env config out := by
  cases hrec : execLoop env config (executionOrder env config).length 0
      (executionOrder env config) with
  | error u =>
    cases u
    rw [executeBundle_panic_eq env config st hrec] at h
    cases h
  | ok out =>
    rw [executeBundle_ok_eq env config st out hrec] at h
    simp only [Except.ok.injEq] at h
    exact ⟨out, rfl, h.symm⟩

end Bundler

/-- C1 counterexample: `execute_bundle` in src/bundler.rs performs no
validation at all.  A config with an empty wallet list is not rejected: the
call returns `Ok` (with an empty, zero-transaction result) and the bundle
history is mutated (it gains one entry). -/
theorem c1_counterexample :
    cfgEmptyWallets.wallets = [] ∧
    (Bundler.executeBundle defaultEnv cfgEmptyWallets st0).result =
      Except.ok (Bundler.assembleResult defaultEnv cfgEmptyWallets ⟨[], 0, 0, [], []⟩) ∧
    (Bundler.executeBundle defaultEnv cfgEmptyWallets st0).state.bundle_history.length = 1 ∧
    st0.bundle_history.length = 0 :=
  ⟨rfl, rfl, rfl, rfl⟩

/-- C1 (amended): the src/bundler.rs orchestrator performs no validation; in
the src/bundle.rs variant, a request with an empty wallet list or a
non-positive amount-per-wallet is rejected with a validation error before any
state mutation (the bundles map is returned unchanged), while any other
request is never rejected by validation — in particular a wallet list longer
than 1000 entries is not checked. -/
theorem c1_amended :
    (∀ (env : BundleV.Env) (req : BundleV.BundleRequest) (st : BundleV.ManagerState),
        req.wallets.isEmpty = true ∨ req.amount_per_wallet ≤ 0 →
        ∃ msg, BundleV.execute_bundle env req st =
          (Except.error (BundleV.VErr.validation msg), st)) ∧
    (∀ (env : BundleV.Env) (req : BundleV.BundleRequest) (st : BundleV.ManagerState),
        req.wallets.isEmpty = false → ¬ req.amount_per_wallet ≤ 0 →
        (∃ r, (BundleV.execute_bundle env req st).1 = Except.ok r) ∨
        (BundleV.execute_bundle env req st).1 = Except.error BundleV.VErr.panic) := by
  constructor
  · intro env req st h
    by_cases he : req.wallets.isEmpty
    · exact ⟨"No wallets provided for bundle", by unfold BundleV.execute_bundle; simp [he]⟩
    · have ha : req.amount_per_wallet ≤ 0 := by
        rcases h with h | h
        · exact absurd h he
        · exact h
      exact ⟨"Invalid amount per wallet", by unfold BundleV.execute_bundle; simp [he, ha]⟩
  · intro env req st he ha
    unfold BundleV.execute_bundle
    simp only [he, Bool.false_eq_true, if_false, ha, ite_false]
    cases hrec : BundleV.execLoopV env req 0 req.wallets with
    | error u =>
      cases u
      right
      rfl
    | ok val =>
      obtain ⟨txs, succ, cost, tr⟩ := val
      left
      exact ⟨_, rfl⟩

/-- Witness for C1 (amended) at a concrete empty-wallet request. -/
theorem c1_amended_witness :
    (∃ msg, BundleV.execute_bundle defaultEnvV reqEmptyWallets ⟨[]⟩ =
      (Except.error (BundleV.VErr.validation msg), (⟨[]⟩ : BundleV.ManagerState))) ∧
    ((∃ r, (BundleV.execute_bundle defaultEnvV
          { reqEmptyWallets with wallets := ["walletAB"] } ⟨[]⟩).1 = Except.ok r) ∨
      (BundleV.execute_bundle defaultEnvV
          { reqEmptyWallets with wallets := ["walletAB"] } ⟨[]⟩).1 =
        Except.error BundleV.VErr.panic) :=
  ⟨c1_amended.1 defaultEnvV reqEmptyWallets ⟨[]⟩ (Or.inl rfl),
   c1_amended.2 defaultEnvV { reqEmptyWallets with wallets := ["walletAB"] } ⟨[]⟩
     rfl (by norm_num [reqEmptyWallets])⟩

/-- C3: for every config accepted by the orchestrator whose wallet ids survive
the logging slice, the returned `BundleResult` has `total_transactions` equal
to the wallet-list length, exactly one `TransactionResult` per wallet in the
attempted (execution) order, and `success_count` equal to the number of
confirmed transactions, hence between 0 and `total_transactions`. -/
theorem c3_result_shape (env : Bundler.ExecEnv) (config : Bundler.BundleConfig)
    (st : Bundler.BundleManagerState)
    (hEnv : Bundler.EnvSound env config)
    (hw : ∀ w ∈ config.wallets, ¬ w.utf8ByteSize < 8) :
    ∃ r, (Bundler.executeBundle env config st).result = Except.ok r ∧
      r.total_transactions = config.wallets.length ∧
      r.transactions.length = r.total_transactions ∧
      r.transactions.map (fun t => t.wallet) = Bundler.executionOrder env config ∧
      (r.transactions.map (fun t => t.wallet)).Perm config.wallets ∧
      r.success_count = Bundler.countConfirmed r.transactions ∧
      r.success_count ≤ r.total_transactions := by
  have hperm := Bundler.executionOrder_perm env config hEnv
  obtain ⟨out, hout⟩ := Bundler.executeBundle_runs env config hEnv hw
  have heq := Bundler.executeBundle_ok_eq env config st out hout
  obtain ⟨h1, h2, h3⟩ := Bundler.execLoop_transactions env config
    (Bundler.executionOrder env config).length (Bundler.executionOrder env config) 0 out hout
  refine ⟨Bundler.assembleResult env config out, by rw [heq], rfl, ?_, ?_, ?_, h3, ?_⟩
  · show out.transactions.length = config.wallets.length
    rw [h2, hperm.length_eq]
  · exact h1
  · show (out.transactions.map (fun t => t.wallet)).Perm config.wallets
    rw [h1]
    exact hperm
  · show out.success_count ≤ config.wallets.length
    rw [h3]
    calc Bundler.countConfirmed out.transactions ≤ out.transactions.length :=
          Bundler.countConfirmed_le _
      _ = config.wallets.length := by rw [h2, hperm.length_eq]

/-- Witness for C3 at a concrete two-wallet stealth config. -/
theorem c3_result_shape_witness :
    ∃ r, (Bundler.executeBundle defaultEnv cfgFull st0).result = Except.ok r ∧
      r.total_transactions = 2 ∧ r.transactions.length = 2 := by
  obtain ⟨r, hok, ht, hlen, -, -, -, -⟩ :=
    c3_result_shape defaultEnv cfgFull st0 (defaultEnv_sound cfgFull) (by decide)
  exact ⟨r, hok, by rw [ht]; rfl, by rw [hlen, ht]; rfl⟩

/-- C4: the stealth score is always in [0,100] and equals exactly the
spec's weighted sum capped at 100; and the returned result carries
`StealthMetrics` if and only if stealth mode was requested. -/
theorem c4_stealth_score :
    (∀ (config : Bundler.BundleConfig) (metrics : Bundler.StealthMetrics),
        0 ≤ Bundler.calculate_stealth_score config metrics ∧
        Bundler.calculate_stealth_score config metrics ≤ 100 ∧
        Bundler.calculate_stealth_score config metrics =
          Bundler.specStealthScore config metrics) ∧
    (∀ (env : Bundler.ExecEnv) (config : Bundler.BundleConfig)
        (st : Bundler.BundleManagerState),
        Bundler.EnvSound env config →
        (∀ w ∈ config.wallets, ¬ w.utf8ByteSize < 8) →
        ∃ r, (Bundler.executeBundle env config st).result = Except.ok r ∧
          (r.stealth_metrics.isSome ↔ config.stealth_mode = true)) := by
  constructor
  · intro config metrics
    refine ⟨?_, ?_, ?_⟩
    · unfold Bundler.calculate_stealth_score
      refine le_min ?_ (by norm_num)
      split_ifs <;> norm_num
    · exact min_le_right _ _
    · unfold Bundler.calculate_stealth_score Bundler.specStealthScore
      simp only [zero_add]
  · intro env config st hEnv hw
    obtain ⟨out, hout⟩ := Bundler.executeBundle_runs env config hEnv hw
    have heq := Bundler.executeBundle_ok_eq env config st out hout
    refine ⟨Bundler.assembleResult env config out, by rw [heq], ?_⟩
    rw [Bundler.assembleResult_metrics]
    cases hs : config.stealth_mode <;> simp [hs]

/-- Witness for C4: concrete score evaluation and metrics presence. -/
theorem c4_stealth_score_witness :
    (0 ≤ Bundler.calculate_stealth_score cfgFull
        ⟨true, true, true, [100], 0⟩ ∧
      Bundler.calculate_stealth_score cfgFull ⟨true, true, true, [100], 0⟩ ≤ 100) ∧
    ∃ r, (Bundler.executeBundle defaultEnv cfgFull st0).result = Except.ok r ∧
      (r.stealth_metrics.isSome ↔ cfgFull.stealth_mode = true) := by
  have h1 := c4_stealth_score.1 cfgFull ⟨true, true, true, [100], 0⟩
  have h2 := c4_stealth_score.2 defaultEnv cfgFull st0 (defaultEnv_sound cfgFull) (by decide)
  exact ⟨⟨h1.1, h1.2.1⟩, h2⟩

/-- C5: when MEV protection is enabled, the per-wallet anti-front-running
delays are exactly the `gen_range` draws over the per-kind base range
(snipe 25–75, buy 100–300, sell 150–400, volume 50–150, otherwise 100–200),
each lies in that half-open range, each is slept immediately before the
operation executor is invoked for that wallet (the trace equals `expTrace`,
in which every `mevWait` directly precedes its `exec`), and the delays are
recorded verbatim, in execution order, into `StealthMetrics.anti_mev_delays`
whenever the metrics are attached; when MEV protection is disabled, no MEV
delay is recorded and none occurs in the trace. -/
theorem c5_mev_delays (env : Bundler.ExecEnv) (config : Bundler.BundleConfig)
    (st : Bundler.BundleManagerState)
    (hEnv : Bundler.EnvSound env config)
    (hw : ∀ w ∈ config.wallets, ¬ w.utf8ByteSize < 8) :
    ∃ r, (Bundler.executeBundle env config st).result = Except.ok r ∧
      (Bundler.executeBundle env config st).trace =
        Bundler.expTrace env config (Bundler.executionOrder env config).length 0
          (Bundler.executionOrder env config) ∧
      (config.mev_protection = true →
        (Bundler.executeBundle env config st).mevDelays =
          (List.range (Bundler.executionOrder env config).length).map
            (fun k => Bundler.calculate_mev_protection_delay env k config.bundle_type) ∧
        (∀ d ∈ (Bundler.executeBundle env config st).mevDelays,
          (Bundler.mevRange config.bundle_type).1 ≤ d ∧
            d < (Bundler.mevRange config.bundle_type).2) ∧
        Bundler.mevWaitDelays ((Bundler.executeBundle env config st).trace) =
          (Bundler.executeBundle env config st).mevDelays ∧
        (config.stealth_mode = true → ∃ m, r.stealth_metrics = some m ∧
          m.anti_mev_delays = (Bundler.executeBundle env config st).mevDelays)) ∧
      (config.mev_protection = false →
        (Bundler.executeBundle env config st).mevDelays = [] ∧
        Bundler.mevWaitDelays ((Bundler.executeBundle env config st).trace) = []) := by
  obtain ⟨out, hout⟩ := Bundler.executeBundle_runs env config hEnv hw
  have heq := Bundler.executeBundle_ok_eq env config st out hout
  have htr := Bundler.execLoop_trace env config _ _ 0 out hout
  have hmd := Bundler.execLoop_mevDelays env config _ _ 0 out hout
  have hEB1 : (Bundler.executeBundle env config st).result =
      Except.ok (Bundler.assembleResult env config out) := by rw [heq]
  have hEB2 : (Bundler.executeBundle env config st).trace = out.trace := by rw [heq]
  have hEB3 : (Bundler.executeBundle env config st).mevDelays = out.anti_mev_delays := by
    rw [heq]
  refine ⟨Bundler.assembleResult env config out, hEB1, hEB2.trans htr,
    fun hm => ?_, fun hm => ?_⟩
  · rw [hm, if_pos rfl] at hmd
    refine ⟨?_, ?_, ?_, fun hsm => ?_⟩
    · rw [hEB3, hmd]
      simp only [Nat.zero_add]
    · intro d hd
      rw [hEB3, hmd] at hd
      obtain ⟨k, -, rfl⟩ := List.mem_map.mp hd
      rw [Bundler.calculate_mev_protection_delay_eq]
      exact hEnv.2.1 _ _ _ (Bundler.mevRange_lt _)
    · rw [hEB2, hEB3, htr, Bundler.mevWaitDelays_expTrace, hm, if_pos rfl, hmd]
    · refine ⟨{ randomization_applied := config.randomize_order,
                multiple_rpcs_used := config.use_multiple_rpcs,
                timing_randomized := config.stealth_mode,
                anti_mev_delays := out.anti_mev_delays,
                stealth_score := Bundler.calculate_stealth_score config
                  { randomization_applied := config.randomize_order,
                    multiple_rpcs_used := config.use_multiple_rpcs,
                    timing_randomized := config.stealth_mode,
                    anti_mev_delays := out.anti_mev_delays,
                    stealth_score := 0 } }, ?_, hEB3.symm⟩
      rw [Bundler.assembleResult_metrics, if_pos hsm]
  · rw [hm] at hmd
    simp only [Bool.false_eq_true, if_false] at hmd
    refine ⟨hEB3.trans hmd, ?_⟩
    rw [hEB2, htr, Bundler.mevWaitDelays_expTrace, hm]
    simp only [Bool.false_eq_true, if_false]

/-- Witness for C5: with the deterministic oracle (gen_range returning its
lower bound) and a two-wallet buy bundle with MEV protection, the recorded
anti-MEV delays are [100, 100] — one draw from 100..300 per wallet. -/
theorem c5_mev_delays_witness :
    ∃ r, (Bundler.executeBundle defaultEnv cfgFull st0).result = Except.ok r ∧
      (Bundler.executeBundle defaultEnv cfgFull st0).mevDelays = [100, 100] := by
  obtain ⟨r, hok, -, hmev, -⟩ :=
    c5_mev_delays defaultEnv cfgFull st0 (defaultEnv_sound cfgFull) (by decide)
  obtain ⟨h1, -, -, hmet⟩ := hmev rfl
  obtain ⟨m, -, -⟩ := hmet rfl
  refine ⟨r, hok, ?_⟩
  rw [h1]
  decide

/-- C6 counterexample: with stealth mode disabled, a base stagger delay of
100 ms and two wallets, the claim demands that the second operation wait the
unmodified 100 ms base delay — but src/bundler.rs guards the whole stagger
sleep behind `config.stealth_mode`, so no stagger delay at all is waited. -/
theorem c6_counterexample :
    cfgNoStealth.stealth_mode = false ∧
    cfgNoStealth.stagger_delay = 100 ∧
    cfgNoStealth.wallets.length = 2 ∧
    Bundler.staggerDelays ((Bundler.executeBundle defaultEnv cfgNoStealth st0).trace) = [] :=
  ⟨rfl, rfl, rfl, by decide⟩

namespace BundleV

theorem execLoopV_cons (env : Env) (request : BundleRequest) (i : Nat)
    (w : String) (rest : List String) :
    execLoopV env request i (w :: rest) =
      if w.utf8ByteSize < 8 then Except.error ()
      else
        match execLoopV env request (i + 1) rest with
        | Except.error () => Except.error ()
        | Except.ok out =>
          Except.ok ((stepOutcomeV env request i w).1 :: out.1,
            (stepOutcomeV env request i w).2.1 + out.2.1,
            (stepOutcomeV env request i w).2.2 + out.2.2.1,
            (staggerStepV env request i).map Bundler.WaitEvent.staggerWait
              ++ [Bundler.WaitEvent.exec w] ++ out.2.2.2) := rfl

theorem execLoopV_total (env : Env) (request : BundleRequest)
    (ws : List String) : ∀ (i : Nat), (∀ w ∈ ws, ¬ w.utf8ByteSize < 8) →
      ∃ out, execLoopV env request i ws = Except.ok out := by
  induction ws with
  | nil => exact fun i _ => ⟨_, rfl⟩
  | cons w rest ih =>
    intro i hw
    obtain ⟨out, hout⟩ := ih (i + 1) (fun x hx => hw x (List.mem_cons_of_mem _ hx))
    have hby := hw w (List.mem_cons_self _ _)
    simp [execLoopV_cons, hout, hby]

theorem staggerDelays_map_staggerWait (l : List Nat) :
    Bundler.staggerDelays (l.map Bundler.WaitEvent.staggerWait) = l := by
  induction l with
  | nil => rfl
  | cons d rest ih => simp_all [Bundler.staggerDelays]

theorem execLoopV_stagger (env : Env) (request : BundleRequest)
    (ws : List String) : ∀ (i : Nat)
      (out : List TransactionResult × Nat × Rat × List Bundler.WaitEvent),
      execLoopV env request i ws = Except.ok out →
      Bundler.staggerDelays out.2.2.2 = expStagV env request i ws := by
  induction ws with
  | nil =>
    intro i out h
    cases h
    rfl
  | cons w rest ih =>
    intro i out h
    rw [execLoopV_cons] at h
    split at h
    · cases h
    · cases hrec : execLoopV env request (i + 1) rest with
      | error u =>
        cases u
        rw [hrec] at h
        cases h
      | ok out1 =>
        rw [hrec] at h
        simp only [Except.ok.injEq] at h
        subst h
        show Bundler.staggerDelays
            ((staggerStepV env request i).map Bundler.WaitEvent.staggerWait
              ++ [Bundler.WaitEvent.exec w] ++ out1.2.2.2) =
          expStagV env request i (w :: rest)
        rw [Bundler.staggerDelays_append, Bundler.staggerDelays_append,
          staggerDelays_map_staggerWait, ih (i + 1) out1 hrec]
        simp [Bundler.staggerDelays, expStagV]

theorem expStagV_shift (env : Env) (request : BundleRequest)
    (ws : List String) : ∀ (i : Nat),
      expStagV env request (i + 1) ws =
        if request.settings.stealth_mode = true then
          (List.range ws.length).map (fun k => staggerDelayV env request (i + 1 + k))
        else [] := by
  induction ws with
  | nil =>
    intro i
    split <;> rfl
  | cons w rest ih =>
    intro i
    show staggerStepV env request (i + 1) ++ expStagV env request (i + 1 + 1) rest = _
    rw [ih (i + 1)]
    by_cases hs : request.settings.stealth_mode = true
    · rw [if_pos hs, if_pos hs]
      simp only [List.length_cons]
      rw [Bundler.range_map_shift (fun x => staggerDelayV env request x) rest.length (i + 1)]
      simp [staggerStepV, hs, Nat.succ_pos]
    · rw [if_neg hs, if_neg hs]
      simp [staggerStepV, hs]

theorem execLoopV_noStagFirst (env : Env) (request : BundleRequest)
    (ws : List String)
    (out : List TransactionResult × Nat × Rat × List Bundler.WaitEvent)
    (h : execLoopV env request 0 ws = Except.ok out) :
    Bundler.staggerBeforeFirstExec out.2.2.2 = false := by
  cases ws with
  | nil =>
    cases h
    rfl
  | cons w rest =>
    rw [execLoopV_cons] at h
    split at h
    · cases h
    · cases hrec : execLoopV env request (0 + 1) rest with
      | error u =>
        cases u
        rw [hrec] at h
        cases h
      | ok out1 =>
        rw [hrec] at h
        simp only [Except.ok.injEq] at h
        subst h
        show Bundler.staggerBeforeFirstExec
            ((staggerStepV env request 0).map Bundler.WaitEvent.staggerWait
              ++ [Bundler.WaitEvent.exec w] ++ out1.2.2.2) = false
        rw [show staggerStepV env request 0 = [] from by simp [staggerStepV]]
        simp [Bundler.staggerBeforeFirstExec, Bundler.isExec, List.takeWhile]

end BundleV

theorem defaultEnvV_sound : BundleV.EnvSoundV defaultEnvV := by
  intro i
  constructor <;> norm_num [defaultEnvV]

/-- C6 (amended, scoped per variant): in the src/bundler.rs orchestrator,
when stealth mode is enabled every execution-order index > 0 waits a stagger
delay equal to the configured base delay times a jitter factor drawn from
[0.5, 1.5) (truncated to whole milliseconds, jitter applied regardless of MEV
protection), and when stealth mode is disabled no stagger delay is waited at
all; in the src/bundle.rs variant, for index > 0 a stagger delay is waited
before the operation only under stealth mode, and it equals the base delay
times a [0.5, 1.5) jitter draw when MEV protection is also enabled and the
unmodified base delay otherwise, with no stagger delay when stealth mode is
off.  In both variants the first operation never waits a stagger delay. -/
theorem c6_stagger :
    (∀ (env : Bundler.ExecEnv) (config : Bundler.BundleConfig)
        (st : Bundler.BundleManagerState),
        Bundler.EnvSound env config →
        (∀ w ∈ config.wallets, ¬ w.utf8ByteSize < 8) →
        ∃ r, (Bundler.executeBundle env config st).result = Except.ok r ∧
          (config.stealth_mode = true →
            Bundler.staggerDelays ((Bundler.executeBundle env config st).trace) =
              (List.range ((Bundler.executionOrder env config).length - 1)).map
                (fun k => Bundler.staggerDelayAt env config k)) ∧
          (config.stealth_mode = false →
            Bundler.staggerDelays ((Bundler.executeBundle env config st).trace) = []) ∧
          (∀ k, Bundler.staggerDelayAt env config k =
            (((config.stagger_delay : Rat)) * env.jitter k).floor.toNat ∧
            (1 : Rat)/2 ≤ env.jitter k ∧ env.jitter k < 3/2) ∧
          Bundler.staggerBeforeFirstExec ((Bundler.executeBundle env config st).trace)
            = false) ∧
    (∀ (env : BundleV.Env) (request : BundleV.BundleRequest)
        (out : List BundleV.TransactionResult × Nat × Rat × List Bundler.WaitEvent),
        BundleV.EnvSoundV env →
        BundleV.execLoopV env request 0 request.wallets = Except.ok out →
        (request.settings.stealth_mode = true →
          Bundler.staggerDelays out.2.2.2 =
            (List.range (request.wallets.length - 1)).map
              (fun k => BundleV.staggerDelayV env request (1 + k))) ∧
        (request.settings.stealth_mode = false →
          Bundler.staggerDelays out.2.2.2 = []) ∧
        (∀ k, (request.settings.mev_protection = true →
                BundleV.staggerDelayV env request k =
                  (((request.settings.stagger_delay : Rat)) * env.jitter k).floor.toNat) ∧
              (request.settings.mev_protection = false →
                BundleV.staggerDelayV env request k = request.settings.stagger_delay) ∧
              (1 : Rat)/2 ≤ env.jitter k ∧ env.jitter k < 3/2) ∧
        Bundler.staggerBeforeFirstExec out.2.2.2 = false) := by
  constructor
  · intro env config st hEnv hw
    obtain ⟨out, hout⟩ := Bundler.executeBundle_runs env config hEnv hw
    have heq := Bundler.executeBundle_ok_eq env config st out hout
    have htr := Bundler.execLoop_trace env config _ _ 0 out hout
    have hEB1 : (Bundler.executeBundle env config st).result =
        Except.ok (Bundler.assembleResult env config out) := by rw [heq]
    have hEB2 : (Bundler.executeBundle env config st).trace = out.trace := by rw [heq]
    have hsd := Bundler.staggerDelays_expTrace env config
      (Bundler.executionOrder env config).length (Bundler.executionOrder env config) 0
      (Nat.zero_add _)
    refine ⟨Bundler.assembleResult env config out, hEB1, fun hs => ?_, fun hs => ?_,
      fun k => ⟨rfl, hEnv.2.2 k⟩, ?_⟩
    · rw [hEB2, htr, hsd, if_pos hs]
      simp only [Nat.zero_add]
    · rw [hEB2, htr, hsd, hs]
      simp only [Bool.false_eq_true, if_false]
    · rw [hEB2, htr]
      exact Bundler.staggerBeforeFirstExec_expTrace env config _ _ 0
  · intro env request out hEnvV hok
    have hsd := BundleV.execLoopV_stagger env request request.wallets 0 out hok
    refine ⟨fun hs => ?_, fun hs => ?_,
      fun k => ⟨fun hm => ?_, fun hm => ?_, hEnvV k⟩, ?_⟩
    · rw [hsd]
      cases hws : request.wallets with
      | nil => rfl
      | cons w rest =>
        show BundleV.staggerStepV env request 0
            ++ BundleV.expStagV env request (0 + 1) rest = _
        rw [show BundleV.staggerStepV env request 0 = [] from by
              simp [BundleV.staggerStepV],
          BundleV.expStagV_shift env request rest 0, if_pos hs]
        simp only [List.nil_append, List.length_cons, Nat.add_sub_cancel, Nat.zero_add]
    · rw [hsd]
      cases hws : request.wallets with
      | nil => rfl
      | cons w rest =>
        show BundleV.staggerStepV env request 0
            ++ BundleV.expStagV env request (0 + 1) rest = []
        rw [show BundleV.staggerStepV env request 0 = [] from by
              simp [BundleV.staggerStepV],
          BundleV.expStagV_shift env request rest 0, if_neg (by simp [hs])]
        rfl
    · unfold BundleV.staggerDelayV
      rw [if_pos hm]
    · unfold BundleV.staggerDelayV
      rw [if_neg (by simp [hm])]
    · exact BundleV.execLoopV_noStagFirst env request request.wallets out hok

/-- Witness for C6 (amended): in bundler.rs, stealth on with unit jitter
gives the single stagger delay [100] and stealth off gives none; in
bundle.rs, stealth on with MEV protection off gives the unmodified base
delay [100] at index 1. -/
theorem c6_stagger_witness :
    (∃ r, (Bundler.executeBundle defaultEnv cfgFull st0).result = Except.ok r ∧
      Bundler.staggerDelays ((Bundler.executeBundle defaultEnv cfgFull st0).trace) =
        [Bundler.staggerDelayAt defaultEnv cfgFull 0]) ∧
    Bundler.staggerDelays ((Bundler.executeBundle defaultEnv cfgNoStealth st0).trace) = [] ∧
    (∃ out, BundleV.execLoopV defaultEnvV reqStealthNoMev 0 reqStealthNoMev.wallets =
        Except.ok out ∧ Bundler.staggerDelays out.2.2.2 = [100]) := by
  refine ⟨?_, ?_, ?_⟩
  · obtain ⟨r, hok, hs, -, -, -⟩ :=
      c6_stagger.1 defaultEnv cfgFull st0 (defaultEnv_sound cfgFull) (by decide)
    refine ⟨r, hok, ?_⟩
    rw [hs rfl]
    rfl
  · obtain ⟨r, -, -, hns, -, -⟩ :=
      c6_stagger.1 defaultEnv cfgNoStealth st0 (defaultEnv_sound cfgNoStealth) (by decide)
    exact hns rfl
  · obtain ⟨out, hout⟩ :=
      BundleV.execLoopV_total defaultEnvV reqStealthNoMev reqStealthNoMev.wallets 0 (by decide)
    obtain ⟨hs, -, -, -⟩ := c6_stagger.2 defaultEnvV reqStealthNoMev out defaultEnvV_sound hout
    refine ⟨out, hout, ?_⟩
    rw [hs rfl]
    rfl

/-- C7 counterexample: in src/bundler.rs the dispatch's `_` arm silently
returns a simulated success.  Executing a bundle whose type "transfer" is
outside the six enumerated kinds yields a confirmed transaction with the
placeholder signature — not a validation error. -/
theorem c7_counterexample :
    ("transfer" ∉ (["buy", "sell", "distribute", "volume", "snipe", "pump"] : List String)) ∧
    cfgUnknownKind.bundle_type = "transfer" ∧
    (Bundler.executeBundle defaultEnv cfgUnknownKind st0).result.map
        (fun r => r.transactions.map (fun t => t.status)) = Except.ok ["confirmed"] ∧
    (Bundler.executeBundle defaultEnv cfgUnknownKind st0).result.map
        (fun r => r.transactions.map (fun t => t.signature)) =
      Except.ok [some "simulated_signature"] ∧
    (Bundler.executeBundle defaultEnv cfgUnknownKind st0).result.map
        (fun r => r.success_count) = Except.ok 1 :=
  ⟨by decide, rfl, rfl, rfl, rfl⟩

/-- C7 (amended): the two variants disagree.  In src/bundle.rs, a bundle type
outside {buy, sell, distribute, volume} (hence also snipe and pump) makes the
per-wallet executor return an error, never a confirmed fallback; in
src/bundler.rs, any type outside the six handled kinds silently falls back to
a confirmed simulated success. -/
theorem c7_unknown_kind :
    (∀ (env : BundleV.Env) (i : Nat) (bt w : String) (amt : Rat)
        (s : BundleV.BundleSettings),
        env.hasKeypair w = true →
        bt ∉ (["buy", "sell", "distribute", "volume"] : List String) →
        BundleV.execute_transaction env i bt w amt s =
          Except.error ("Unsupported bundle type: " ++ bt)) ∧
    (∀ (env : Bundler.ExecEnv) (i : Nat) (config : Bundler.BundleConfig),
        config.bundle_type ∉
          (["buy", "sell", "snipe", "volume", "pump", "distribute"] : List String) →
        Bundler.dispatchTx env i config =
          Except.ok ("simulated_signature", config.amount_per_wallet, config.priority_fee)) := by
  constructor
  · intro env i bt w amt s hk hbt
    unfold BundleV.execute_transaction
    rw [hk]
    simp only [List.mem_cons, List.mem_singleton, not_or] at hbt
    split <;> simp_all
  · intro env i config hbt
    unfold Bundler.dispatchTx
    simp only [List.mem_cons, List.mem_singleton, not_or] at hbt
    split <;> simp_all

/-- Witness for C7 (amended) at the concrete unknown kind "transfer". -/
theorem c7_unknown_kind_witness :
    BundleV.execute_transaction defaultEnvV 0 "transfer" "walletAB" 1 sampleSettings =
      Except.error ("Unsupported bundle type: " ++ "transfer") ∧
    Bundler.dispatchTx defaultEnv 0 cfgUnknownKind =
      Except.ok ("simulated_signature", cfgUnknownKind.amount_per_wallet,
        cfgUnknownKind.priority_fee) :=
  ⟨c7_unknown_kind.1 defaultEnvV 0 "transfer" "walletAB" 1 sampleSettings rfl (by decide),
   c7_unknown_kind.2 defaultEnv 0 cfgUnknownKind (by decide)⟩

/-- C8 counterexample: the risk score is capped above at 1 but has no lower
clamp, so an externally supplied negative "popularity" signal drives it below
0 — the claimed bound risk ∈ [0,1] fails for arbitrary real-valued signal
maps (here popularity = −10, amount = 1, random draw 0 ∈ [0, 0.1)). -/
theorem c8_counterexample :
    (0 : Rat) ≤ 0 ∧ (0 : Rat) < 1/10 ∧
    Mev.detect_frontrunning_risk [("popularity_tok", -10)] "tok" 1 0 < 0 := by
  refine ⟨le_rfl, by norm_num, ?_⟩
  unfold Mev.detect_frontrunning_risk
  rw [show (List.lookup ("popularity_" ++ "tok")
        [("popularity_tok", (-10 : Rat))]) = some (-10) from rfl,
    show (List.lookup "network_congestion"
        [("popularity_tok", (-10 : Rat))]) = none from rfl]
  norm_num [min_def]

/-- C8 (amended): the returned risk score is always ≤ 1; it lies in [0,1]
whenever the supplied network-signal values are nonnegative (the code caps
above at 1 but never clamps below 0, so negative signal entries produce
negative scores); and a transaction is classified safe exactly when the
freshly computed risk is strictly below 0.7. -/
theorem c8_risk_bounds :
    (∀ (stats : List (String × Rat)) (t : String) (a rd : Rat),
        Mev.detect_frontrunning_risk stats t a rd ≤ 1) ∧
    (∀ (stats : List (String × Rat)) (t : String) (a rd : Rat),
        0 ≤ rd → (∀ k v, stats.lookup k = some v → 0 ≤ v) →
        0 ≤ Mev.detect_frontrunning_risk stats t a rd) ∧
    (∀ (stats : List (String × Rat)) (t : String) (a rd : Rat),
        Mev.is_transaction_safe stats t a rd = true ↔
          Mev.detect_frontrunning_risk stats t a rd < 7/10) := by
  refine ⟨fun stats t a rd => min_le_right _ _, fun stats t a rd hrd hstats => ?_,
    fun stats t a rd => by simp [Mev.is_transaction_safe]⟩
  unfold Mev.detect_frontrunning_risk
  refine le_min ?_ (by norm_num)
  have h1 : (0 : Rat) ≤ (if a > 10 then (0 : Rat) + 3/10 else (0 : Rat)) := by
    split <;> norm_num
  refine add_nonneg (add_nonneg (add_nonneg h1 ?_) ?_) hrd
  · cases hp : stats.lookup ("popularity_" ++ t) with
    | none => exact le_refl 0
    | some pv => exact mul_nonneg (hstats _ _ hp) (by norm_num)
  · cases hc : stats.lookup "network_congestion" with
    | none => exact le_refl 0
    | some cv => exact mul_nonneg (hstats _ _ hc) (by norm_num)

/-- Witness for C8 (amended) at an empty signal map and a zero draw. -/
theorem c8_risk_bounds_witness :
    0 ≤ Mev.detect_frontrunning_risk [] "tok" 1 0 ∧
    Mev.detect_frontrunning_risk [] "tok" 1 0 ≤ 1 ∧
    (Mev.is_transaction_safe [] "tok" 1 0 = true ↔
      Mev.detect_frontrunning_risk [] "tok" 1 0 < 7/10) :=
  ⟨c8_risk_bounds.2.1 [] "tok" 1 0 le_rfl
      (fun k v h => by simp [List.lookup] at h),
   c8_risk_bounds.1 [] "tok" 1 0,
   c8_risk_bounds.2.2 [] "tok" 1 0⟩

/-- C9: `get_analytics_data` only reads state, so two calls without an
intervening update return identical `AnalyticsData`; and the derived totals
are the deterministic formulas of the stored history — fees = 2% of volume,
profit/loss = 5% of volume minus fees, MEV attacks blocked = ⌊12% of
protected operations⌋ and front-run attempts = ⌊6% of protected operations⌋. -/
theorem c9_analytics_deterministic (s : AnalyticsM.AnalyticsState) :
    (AnalyticsM.getAnalyticsDataCall s).1 =
      (AnalyticsM.getAnalyticsDataCall ((AnalyticsM.getAnalyticsDataCall s).2)).1 ∧
    (AnalyticsM.getAnalyticsDataCall s).2 = s ∧
    (AnalyticsM.getAnalyticsData s).total_fees = AnalyticsM.totalVolumeOf s * (2/100) ∧
    (AnalyticsM.getAnalyticsData s).total_profit_loss =
      AnalyticsM.totalVolumeOf s * (5/100) - AnalyticsM.totalVolumeOf s * (2/100) ∧
    (AnalyticsM.getAnalyticsData s).mev_protection_stats.mev_attacks_blocked =
      (((AnalyticsM.protectedOpsOf s : Rat) * (12/100)).floor).toNat ∧
    (AnalyticsM.getAnalyticsData s).mev_protection_stats.frontrun_attempts_detected =
      (((AnalyticsM.protectedOpsOf s : Rat) * (6/100)).floor).toNat :=
  ⟨rfl, rfl, rfl, rfl, rfl, rfl⟩

/-- C10: a valid config containing the 2-byte wallet id "w1" makes the
`&wallet_address[..8]` logging slice panic after the bundle was registered in
the active map: the call aborts (`Except.error ()`), the active entry is
never removed, and nothing is committed to the history. -/
theorem c10_short_wallet_panics :
    cfgShortWallet.wallets ≠ [] ∧
    cfgShortWallet.wallets.length ≤ 1000 ∧
    0 < cfgShortWallet.amount_per_wallet ∧
    (∃ w ∈ cfgShortWallet.wallets, w.utf8ByteSize < 8) ∧
    (Bundler.executeBundle defaultEnv cfgShortWallet st0).result = Except.error () ∧
    (Bundler.executeBundle defaultEnv cfgShortWallet st0).state.active_bundles =
      [(defaultEnv.bundle_id, cfgShortWallet)] ∧
    (Bundler.executeBundle defaultEnv cfgShortWallet st0).state.bundle_history = [] := by
  refine ⟨by decide, by decide, by norm_num [cfgShortWallet], by decide, rfl, rfl, rfl⟩
